import Mathlib

/-!
Shallow embedding of the static code-quality analysis engine from
`src/mcp_servers/code_quality_server.py` (class `CodeQualityAnalyzer`),
together with proofs of its specification properties.

Modelling conventions:
* The analyzed text is a `List Char`; Python substring tests (`in`) and
  `str.count` are embedded concretely (`pyIn`, `countSubstr`).
* The results of the `re`-module scans the analyzer performs on the text
  are passed explicitly as a `RegexScan` record: each field holds the
  value the corresponding `re.findall` / `re.search` call in the source
  extracts from the text.  All downstream logic (issue construction,
  severities, scoring, grouping, report assembly) is embedded faithfully;
  a property proved for every `RegexScan` holds in particular for the
  scans the Python regexes produce.
* Python floats are embedded as exact rationals.  For the scoring engine
  the float computation `int(base_penalty * multiplier)` agrees with the
  exact integer computation `base * (10 * multiplier) / 10` on every
  reachable (severity, type) pair (finitely many cases, all checked), so
  `penalty` uses the exact form; `specPenalty` below states the same
  quantity as the rational floor, and their agreement is proved.
* Python `round(x, n)` is embedded as round-to-nearest on rationals
  (`roundTo`); its tie-breaking (half-even on binary floats) can differ
  from `round` on exact ties, which none of the proved bounds depend on.
-/

namespace CodeQuality

/-- Issue category types (the `IssueType` enum in the source). -/
inductive IssueType
  | memory
  | performance
  | correctness
  | safety
  | style
deriving DecidableEq

/-- Issue severity levels (the `IssueSeverity` enum in the source). -/
inductive IssueSeverity
  | critical
  | high
  | medium
  | low
deriving DecidableEq

/-- Structured representation of a code issue (the `CodeIssue` dataclass). -/
structure CodeIssue where
  type : IssueType
  severity : IssueSeverity
  message : String
  suggestion : String
  line_number : Option Nat := none
deriving DecidableEq

/-- Hardware profile of a target board (one entry of `BOARD_SPECS`). -/
structure BoardInfo where
  name : String
  total_ram_kb : Nat
  system_reserved_kb : Nat
  is_realtime : Bool
  performance_critical : Bool
deriving DecidableEq

/-- The entry `BOARD_SPECS["esp32dev"]`. -/
def esp32devSpec : BoardInfo :=
  { name := "ESP32 DevKit V1", total_ram_kb := 520, system_reserved_kb := 100,
    is_realtime := false, performance_critical := false }

/-- The entry `BOARD_SPECS["esp32s3"]`. -/
def esp32s3Spec : BoardInfo :=
  { name := "ESP32-S3", total_ram_kb := 1507, system_reserved_kb := 150,
    is_realtime := false, performance_critical := true }

/-- The entry `BOARD_SPECS["esp32c3"]`. -/
def esp32c3Spec : BoardInfo :=
  { name := "ESP32-C3", total_ram_kb := 400, system_reserved_kb := 80,
    is_realtime := true, performance_critical := true }

/-- The lookup `BOARD_SPECS.get(board, BOARD_SPECS["esp32dev"])`: total, with
the default profile for unknown identifiers. -/
def getBoardSpec (board : String) : BoardInfo :=
  if board = "esp32dev" then esp32devSpec
  else if board = "esp32s3" then esp32s3Spec
  else if board = "esp32c3" then esp32c3Spec
  else esp32devSpec

/-- Character list of a string literal. -/
def chars (s : String) : List Char := s.data

/-- Python substring membership `pat in s`. -/
def pyIn (pat s : List Char) : Bool := decide (List.IsInfix pat s)

/-- Fuel-driven helper for `countSubstr`; the fuel starts at `s.length`, which
bounds the number of scanning steps for a nonempty pattern. -/
def countSubstrAux : Nat → List Char → List Char → Nat
  | 0, _, _ => 0
  | _ + 1, _, [] => 0
  | n + 1, pat, c :: rest =>
    if pat.isPrefixOf (c :: rest) then
      1 + countSubstrAux n pat ((c :: rest).drop pat.length)
    else
      countSubstrAux n pat rest

/-- Python `s.count(pat)` for a nonempty pattern: the number of
non-overlapping occurrences, scanning left to right. -/
def countSubstr (pat s : List Char) : Nat := countSubstrAux s.length pat s

/-- Results of the regular-expression scans the analyzer runs over the text.
The regex engine itself is not part of the embedding; each field holds the
value the corresponding `re` call in the source extracts from the text. -/
structure RegexScan where
  /-- Whether the search for a `char` array declared without a size matches. -/
  unbounded_char_array : Bool
  /-- Declared sizes from the findall over sized `char` array declarations. -/
  large_arrays : List Nat
  /-- Number of long string literals passed to a serial print call. -/
  string_literals : Nat
  /-- Durations from the findall over numeric-literal `delay` calls. -/
  long_delays : List Nat
  /-- Whether the search over infinite `while` loop forms matches. -/
  infinite_loop : Bool
  /-- Number of top-level primitive-typed variable declarations. -/
  global_vars : Nat
  /-- Number of bracketed-size array occurrences. -/
  arrays : Nat
  /-- Number of struct-type declaration occurrences. -/
  structs : Nat
  /-- Number of function-definition matches. -/
  functions : Nat
deriving DecidableEq

/-- A scan in which no regex matched anything (an empty text, for instance). -/
def scanZero : RegexScan :=
  { unbounded_char_array := false, large_arrays := [], string_literals := 0,
    long_delays := [], infinite_loop := false, global_vars := 0, arrays := 0,
    structs := 0, functions := 0 }

/-- Correctness issue for a missing `setup` entry point. -/
def issueMissingSetup : CodeIssue :=
  { type := IssueType.correctness, severity := IssueSeverity.critical,
    message := "Missing void setup() function - code won\x27t compile",
    suggestion := "Add: void setup() \x7b /* initialization code */ \x7d" }

/-- Correctness issue for a missing `loop` entry point. -/
def issueMissingLoop : CodeIssue :=
  { type := IssueType.correctness, severity := IssueSeverity.critical,
    message := "Missing void loop() function - code won\x27t compile",
    suggestion := "Add: void loop() \x7b /* main program logic */ \x7d" }

/-- Correctness issue for an unbounded array declaration. -/
def issueUnboundedArray : CodeIssue :=
  { type := IssueType.correctness, severity := IssueSeverity.high,
    message := "Unbounded array declaration without size",
    suggestion := "Specify array size: char buffer[256];" }

/-- The method `_check_correctness`: structural correctness issues. -/
def checkCorrectness (code : List Char) (scan : RegexScan) : List CodeIssue :=
  (if pyIn (chars "void setup()") code = false ∧ pyIn (chars "void setup (") code = false then
    [issueMissingSetup] else []) ++
  (if pyIn (chars "void loop()") code = false ∧ pyIn (chars "void loop (") code = false then
    [issueMissingLoop] else []) ++
  (if scan.unbounded_char_array then [issueUnboundedArray] else [])

/-- Memory issue for one large static array (the `size > 1000` branch), with
board-relative severity. -/
def largeArrayIssue (size : Nat) (board_info : BoardInfo) : CodeIssue :=
  let ram := board_info.total_ram_kb
  { type := IssueType.memory,
    severity := if board_info.total_ram_kb < 500 then IssueSeverity.critical
      else IssueSeverity.high,
    message := s!"Large static array allocation ({size} bytes) detected",
    suggestion := s!"Use dynamic allocation or reduce size. Board has only {ram}KB RAM" }

/-- Memory issue for an allocation/deallocation imbalance. -/
def leakIssue (malloc_count free_count : Nat) : CodeIssue :=
  { type := IssueType.memory, severity := IssueSeverity.high,
    message := s!"Potential memory leak: {malloc_count} malloc calls but only {free_count} free calls",
    suggestion := "Ensure every malloc() has a corresponding free()" }

/-- Memory issue for long string literals printed without the flash macro. -/
def fMacroIssue (string_literals : Nat) : CodeIssue :=
  { type := IssueType.memory, severity := IssueSeverity.medium,
    message := s!"Found {string_literals} string literals without F() macro",
    suggestion := "Use F(\"text\") to store strings in flash: Serial.println(F(\"message\"));" }

/-- The method `_check_memory_safety`. -/
def checkMemorySafety (code : List Char) (scan : RegexScan) (board_info : BoardInfo) :
    List CodeIssue :=
  (scan.large_arrays.flatMap fun size =>
    if 1000 < size then [largeArrayIssue size board_info] else []) ++
  (let malloc_count := countSubstr (chars "malloc") code
   let free_count := countSubstr (chars "free") code
   if 0 < malloc_count ∧ free_count < malloc_count then
     [leakIssue malloc_count free_count] else []) ++
  (if 3 < scan.string_literals then [fMacroIssue scan.string_literals] else [])

/-- Performance issue for a delay of at least 10000 ms, with board-relative
severity. -/
def veryLongDelayIssue (delay_ms : Nat) (board_info : BoardInfo) : CodeIssue :=
  { type := IssueType.performance,
    severity := if board_info.is_realtime then IssueSeverity.critical
      else IssueSeverity.high,
    message := s!"Very long delay ({delay_ms}ms) detected - blocks entire system",
    suggestion := "Use non-blocking timing: millis() or FreeRTOS tasks" }

/-- Performance issue for a delay of 1000 to 9999 ms, with board-relative
severity. -/
def longDelayIssue (delay_ms : Nat) (board_info : BoardInfo) : CodeIssue :=
  { type := IssueType.performance,
    severity := if board_info.is_realtime = false then IssueSeverity.medium
      else IssueSeverity.high,
    message := s!"Long delay ({delay_ms}ms) may impact responsiveness",
    suggestion := "Consider reducing delay or using non-blocking code" }

/-- Per-delay classification: the body of the `for delay_str in long_delays`
loop of `_check_performance`. -/
def delayIssue (delay_ms : Nat) (board_info : BoardInfo) : List CodeIssue :=
  if 10000 ≤ delay_ms then [veryLongDelayIssue delay_ms board_info]
  else if 1000 ≤ delay_ms then [longDelayIssue delay_ms board_info]
  else []

/-- Performance issue for an unconditional infinite loop. -/
def issueInfiniteLoop : CodeIssue :=
  { type := IssueType.performance, severity := IssueSeverity.high,
    message := "Infinite loop with while(1) or while(true) detected",
    suggestion := "Use the loop() function instead for continuous execution" }

/-- Performance issue for many serial prints with no delay anywhere. -/
def issueSerialSpam : CodeIssue :=
  { type := IssueType.performance, severity := IssueSeverity.medium,
    message := "Multiple Serial.print calls without delays may overwhelm serial buffer",
    suggestion := "Add delay(100) or reduce print frequency" }

/-- The method `_check_performance`. -/
def checkPerformance (code : List Char) (scan : RegexScan) (board_info : BoardInfo) :
    List CodeIssue :=
  (scan.long_delays.flatMap fun delay_ms => delayIssue delay_ms board_info) ++
  (if scan.infinite_loop then [issueInfiniteLoop] else []) ++
  (let serial_calls_in_loop := countSubstr (chars "Serial.print") code
   if 5 < serial_calls_in_loop ∧ pyIn (chars "delay") code = false then
     [issueSerialSpam] else [])

/-- Safety issue for a missing serial initialization call. -/
def issueSerialBegin : CodeIssue :=
  { type := IssueType.safety, severity := IssueSeverity.low,
    message := "Missing Serial.begin() - debugging will be difficult",
    suggestion := "Add Serial.begin(115200); in setup()" }

/-- Safety issue for limited error checking in a long text. -/
def issueErrorChecking : CodeIssue :=
  { type := IssueType.safety, severity := IssueSeverity.medium,
    message := "Limited error checking - code may fail silently",
    suggestion := "Add validation: if (sensor.begin()) \x7b /* handle error */ \x7d" }

/-- The method `_check_safety`. -/
def checkSafety (code : List Char) : List CodeIssue :=
  (if pyIn (chars "Serial.begin") code = false then [issueSerialBegin] else []) ++
  (let if_count := countSubstr (chars "if (") code
   if if_count < 2 ∧ 500 < code.length then [issueErrorChecking] else [])

/-- Style issue for the absence of `const` declarations. -/
def issueNoConst : CodeIssue :=
  { type := IssueType.style, severity := IssueSeverity.low,
    message := "No const declarations found",
    suggestion := "Use const for constants: const int LED_PIN = 2;" }

/-- Style issue for low comment density. -/
def issueLowComments : CodeIssue :=
  { type := IssueType.style, severity := IssueSeverity.low,
    message := "Low comment density (<5%)",
    suggestion := "Add comments to explain complex logic" }

/-- Style issue for monolithic code with no helper functions. -/
def issueMonolithic : CodeIssue :=
  { type := IssueType.style, severity := IssueSeverity.medium,
    message := "All code in setup/loop - no helper functions",
    suggestion := "Break complex logic into reusable functions" }

/-- The method `_check_style`. -/
def checkStyle (code : List Char) (scan : RegexScan) : List CodeIssue :=
  (if pyIn (chars "const") code = false ∧ 200 < code.length then [issueNoConst] else []) ++
  (let lines := code.count '\n' + 1
   let comment_ratio : ℚ :=
     ((countSubstr (chars "//") code + countSubstr (chars "/*") code : Nat) : ℚ) /
       ((max 1 lines : Nat) : ℚ)
   if comment_ratio < 1 / 20 ∧ 30 < lines then [issueLowComments] else []) ++
  (let lines := code.count '\n' + 1
   if scan.functions ≤ 2 ∧ 50 < lines then [issueMonolithic] else [])

/-- Python `round(x, n)`: round to `n` decimal places. -/
def roundTo (x : ℚ) (n : Nat) : ℚ := ((round (x * 10 ^ n) : ℤ) : ℚ) / 10 ^ n

/-- Result of the memory estimator (the dict `_estimate_memory` returns). -/
structure MemoryEstimate where
  estimated_code_size_kb : ℚ
  estimated_global_vars_kb : ℚ
  estimated_free_ram_kb : ℚ
  usage_percent : ℚ
  safety_margin : String
deriving DecidableEq

/-- The method `_estimate_memory`: heuristic memory usage for the board. -/
def estimateMemory (code : List Char) (scan : RegexScan) (board_info : BoardInfo) :
    MemoryEstimate :=
  let total_ram : ℚ := board_info.total_ram_kb
  let system_reserve : ℚ := board_info.system_reserved_kb
  let code_size_kb : ℚ := (code.length : ℚ) / 1024
  let global_vars := scan.global_vars
  let arrays := scan.arrays
  let structs := scan.structs
  let estimated_global_kb : ℚ := ((global_vars * 4 + arrays * 20 + structs * 10 : Nat) : ℚ) / 1024
  let used_kb := code_size_kb + estimated_global_kb + system_reserve
  let free_kb := max 0 (total_ram - used_kb)
  let usage_percent := min 100 ((used_kb / total_ram) * 100)
  let safety :=
    if 80 < usage_percent then "critical"
    else if 50 < usage_percent then "warning"
    else "good"
  { estimated_code_size_kb := roundTo code_size_kb 2,
    estimated_global_vars_kb := roundTo estimated_global_kb 2,
    estimated_free_ram_kb := roundTo free_kb 2,
    usage_percent := roundTo usage_percent 1,
    safety_margin := safety }

/-- Base penalty weights by severity (the `severity_weights` dict). -/
def severityWeight : IssueSeverity → Nat
  | IssueSeverity.critical => 20
  | IssueSeverity.high => 12
  | IssueSeverity.medium => 6
  | IssueSeverity.low => 3

/-- Ten times the board-dependent category multiplier (the `type_multipliers`
dict holds 1.0, 1.5, 1.3, 0.8, 0.5; scaling by 10 keeps the table integral). -/
def typeMultX10 (t : IssueType) (board_info : BoardInfo) : Nat :=
  match t with
  | IssueType.correctness => 10
  | IssueType.memory => if board_info.total_ram_kb < 500 then 15 else 10
  | IssueType.performance => if board_info.is_realtime then 13 else 8
  | IssueType.safety => 10
  | IssueType.style => 5

/-- Per-issue deduction `int(base_penalty * multiplier)`, computed exactly; it
agrees with the source's float computation on every reachable case. -/
def penalty (sev : IssueSeverity) (t : IssueType) (board_info : BoardInfo) : Nat :=
  severityWeight sev * typeMultX10 t board_info / 10

/-- The method `_calculate_weighted_score`: start at 100, subtract the
truncated weighted penalty of every issue, clamp once at the end. -/
def calculateWeightedScore (issues : List CodeIssue) (board_info : BoardInfo) : ℤ :=
  let score := issues.foldl (fun s i => s - (penalty i.severity i.type board_info : ℤ)) 100
  max 0 (min 100 score)

/-- Category multiplier as the specification states it, an exact rational. -/
def specMultiplier (t : IssueType) (board_info : BoardInfo) : ℚ :=
  match t with
  | IssueType.correctness => 1
  | IssueType.memory => if board_info.total_ram_kb < 500 then 3 / 2 else 1
  | IssueType.performance => if board_info.is_realtime then 13 / 10 else 4 / 5
  | IssueType.safety => 1
  | IssueType.style => 1 / 2

/-- Per-issue deduction as the specification states it: the integer truncation
of (base penalty by severity) times (category multiplier). -/
def specPenalty (sev : IssueSeverity) (t : IssueType) (board_info : BoardInfo) : ℤ :=
  ⌊(severityWeight sev : ℚ) * specMultiplier t board_info⌋

/-- The dict built by `_group_by_type`, one bucket per issue category. -/
structure GroupedByType where
  memory : List CodeIssue
  performance : List CodeIssue
  correctness : List CodeIssue
  safety : List CodeIssue
  style : List CodeIssue
deriving DecidableEq

/-- One step of the grouping loop: append the issue to its category bucket. -/
def groupByTypeStep (g : GroupedByType) (i : CodeIssue) : GroupedByType :=
  match i.type with
  | IssueType.memory => { g with memory := g.memory ++ [i] }
  | IssueType.performance => { g with performance := g.performance ++ [i] }
  | IssueType.correctness => { g with correctness := g.correctness ++ [i] }
  | IssueType.safety => { g with safety := g.safety ++ [i] }
  | IssueType.style => { g with style := g.style ++ [i] }

/-- The method `_group_by_type`. -/
def groupByType (issues : List CodeIssue) : GroupedByType :=
  issues.foldl groupByTypeStep
    { memory := [], performance := [], correctness := [], safety := [], style := [] }

/-- The method `_get_overall_severity`. -/
def getOverallSeverity (issues : List CodeIssue) : String :=
  let critical := issues.countP fun i => decide (i.severity = IssueSeverity.critical)
  let high := issues.countP fun i => decide (i.severity = IssueSeverity.high)
  if 0 < critical then "critical"
  else if 2 < high then "high"
  else if 0 < high ∨ 5 < issues.length then "medium"
  else if 0 < issues.length then "low"
  else "excellent"

/-- Python `str.capitalize()`: first character upper-cased, rest lower-cased. -/
def pyCapitalize (s : String) : String :=
  match s.data with
  | [] => ""
  | c :: rest => String.mk (c.toUpper :: rest.map Char.toLower)

/-- The method `_generate_summary`. -/
def generateSummary (issues : List CodeIssue) (score : ℤ) (_board_info : BoardInfo) :
    String :=
  let qa : String × String :=
    if 90 ≤ score then ("excellent", "ready for production use")
    else if 75 ≤ score then ("good", "minor improvements recommended")
    else if 50 ≤ score then ("acceptable", "several issues should be addressed")
    else ("poor", "critical issues must be fixed before use")
  let quality := qa.1
  let critical := issues.filter fun i => decide (i.severity = IssueSeverity.critical)
  let memory_issues := issues.filter fun i => decide (i.type = IssueType.memory)
  let perf_issues := issues.filter fun i => decide (i.type = IssueType.performance)
  let nCritical := critical.length
  let highlights :=
    (if critical ≠ [] then [s!"{nCritical} critical issue(s)"] else []) ++
    (if memory_issues ≠ [] then ["memory concerns"] else []) ++
    (if perf_issues ≠ [] then ["performance bottlenecks"] else [])
  let highlight_str :=
    if highlights ≠ [] then String.intercalate ", " highlights else "no major issues"
  let action := pyCapitalize qa.2
  s!"Code quality is {quality} ({score}/100) with {highlight_str}. {action}."

/-- The `issues_by_severity` sub-dictionary of the report. -/
structure SevBuckets where
  critical : List CodeIssue
  high : List CodeIssue
  medium : List CodeIssue
  low : List CodeIssue
deriving DecidableEq

/-- The complete report dictionary `analyze` returns. -/
structure Report where
  quality_score : ℤ
  code_lines : Nat
  code_size_kb : ℚ
  issues : List CodeIssue
  issues_by_severity : SevBuckets
  issues_by_type : GroupedByType
  issues_count : Nat
  critical_count : Nat
  high_count : Nat
  medium_count : Nat
  low_count : Nat
  estimated_ram_usage_percent : ℚ
  estimated_free_ram_kb : ℚ
  memory_status : String
  severity : String
  summary : String
  board : String
deriving DecidableEq

/-- Assembly of the returned report: the tail of `analyze` after the five
checks have produced `issues`. -/
def mkReport (code : List Char) (board_info : BoardInfo) (scan : RegexScan)
    (issues : List CodeIssue) : Report :=
  let memory_analysis := estimateMemory code scan board_info
  let final_score := calculateWeightedScore issues board_info
  let summary := generateSummary issues final_score board_info
  let critical_issues := issues.filter fun i => decide (i.severity = IssueSeverity.critical)
  let high_issues := issues.filter fun i => decide (i.severity = IssueSeverity.high)
  let medium_issues := issues.filter fun i => decide (i.severity = IssueSeverity.medium)
  let low_issues := issues.filter fun i => decide (i.severity = IssueSeverity.low)
  { quality_score := final_score,
    code_lines := code.count '\n' + 1,
    code_size_kb := roundTo ((code.length : ℚ) / 1024) 2,
    issues := issues,
    issues_by_severity :=
      { critical := critical_issues, high := high_issues,
        medium := medium_issues, low := low_issues },
    issues_by_type := groupByType issues,
    issues_count := issues.length,
    critical_count := critical_issues.length,
    high_count := high_issues.length,
    medium_count := medium_issues.length,
    low_count := low_issues.length,
    estimated_ram_usage_percent := memory_analysis.usage_percent,
    estimated_free_ram_kb := memory_analysis.estimated_free_ram_kb,
    memory_status := memory_analysis.safety_margin,
    severity := getOverallSeverity issues,
    summary := summary,
    board := board_info.name }

/-- The analysis body run against an already-resolved board profile. -/
def analyzeWithSpec (code : List Char) (board_info : BoardInfo) (scan : RegexScan) :
    Report :=
  let issues :=
    checkCorrectness code scan ++
    checkMemorySafety code scan board_info ++
    checkPerformance code scan board_info ++
    checkSafety code ++
    checkStyle code scan
  mkReport code board_info scan issues

/-- The method `analyze`: resolve the board profile, run all checks, return
the assembled report. -/
def analyze (code : List Char) (board : String) (scan : RegexScan) : Report :=
  analyzeWithSpec code (getBoardSpec board) scan

/-- Mutable per-instance state of `CodeQualityAnalyzer`. -/
structure AnalyzerState where
  code : List Char
  board : String
  issues : List CodeIssue
  quality_score : ℤ
deriving DecidableEq

/-- The constructor `__init__`. -/
def initState : AnalyzerState :=
  { code := [], board := "esp32dev", issues := [], quality_score := 100 }

/-- The method `analyze` with the instance state explicit: every per-call
field is overwritten at the start of the call, the checks append to
`self.issues`, and the final report is assembled from the accumulated state.
Returns the instance state as left behind by the call plus the report. -/
def analyzeMut (st : AnalyzerState) (code : List Char) (board : String)
    (scan : RegexScan) : AnalyzerState × Report :=
  let st := { st with code := code, board := board, issues := [], quality_score := 100 }
  let board_info := getBoardSpec board
  let st := { st with issues := st.issues ++ checkCorrectness st.code scan }
  let st := { st with issues := st.issues ++ checkMemorySafety st.code scan board_info }
  let st := { st with issues := st.issues ++ checkPerformance st.code scan board_info }
  let st := { st with issues := st.issues ++ checkSafety st.code }
  let st := { st with issues := st.issues ++ checkStyle st.code scan }
  (st, mkReport st.code board_info scan st.issues)

/-- Python argument values as passed dynamically: a string, or any
non-string value. -/
inductive PyArg
  | ofStr (s : String)
  | nonString
deriving DecidableEq

/-- Exceptions the engine can actually raise on a mis-typed call.  The
repository defines no InputError type anywhere; the only failure is the
interpreter's built-in TypeError when `_check_correctness` evaluates the
first substring test on a non-string `self.code`. -/
inductive PyExc
  | typeError
deriving DecidableEq

/-- Dynamic-call semantics of `analyze`: a non-string `code` raises TypeError
at the first substring test; a non-string `board` raises nothing at all,
because `BOARD_SPECS.get` returns the default profile for any key that is not
in the dict. -/
def analyzeDyn (code board : PyArg) (scan : RegexScan) : Except PyExc Report :=
  match code with
  | PyArg.ofStr c =>
    Except.ok (analyzeWithSpec (chars c)
      (match board with
       | PyArg.ofStr b => getBoardSpec b
       | PyArg.nonString => esp32devSpec) scan)
  | PyArg.nonString => Except.error PyExc.typeError

/-! Helper lemmas shared by the claim theorems. -/

lemma foldl_sub_eq (f : CodeIssue → ℤ) (l : List CodeIssue) (a : ℤ) :
    l.foldl (fun s i => s - f i) a = a - (l.map f).sum := by
  induction l generalizing a with
  | nil => simp
  | cons x xs ih => simp [ih, sub_sub]

lemma score_eq_clamp (issues : List CodeIssue) (board_info : BoardInfo) :
    calculateWeightedScore issues board_info
      = max 0 (min 100
          (100 - (issues.map fun i => (penalty i.severity i.type board_info : ℤ)).sum)) := by
  unfold calculateWeightedScore
  rw [foldl_sub_eq]

lemma score_nonneg (issues : List CodeIssue) (board_info : BoardInfo) :
    0 ≤ calculateWeightedScore issues board_info := by
  rw [score_eq_clamp]
  exact le_max_left _ _

lemma score_le_hundred (issues : List CodeIssue) (board_info : BoardInfo) :
    calculateWeightedScore issues board_info ≤ 100 := by
  rw [score_eq_clamp]
  exact max_le (by norm_num) (min_le_left _ _)

lemma penalty_eq_spec (sev : IssueSeverity) (t : IssueType) (board_info : BoardInfo) :
    (penalty sev t board_info : ℤ) = specPenalty sev t board_info := by
  cases sev <;> cases t <;>
    simp only [penalty, specPenalty, specMultiplier, typeMultX10, severityWeight] <;>
    (try split_ifs) <;> norm_num [Int.floor_eq_iff]

lemma analyze_issues_eq (code : List Char) (board : String) (scan : RegexScan) :
    (analyze code board scan).issues
      = checkCorrectness code scan ++ checkMemorySafety code scan (getBoardSpec board) ++
        checkPerformance code scan (getBoardSpec board) ++ checkSafety code ++
        checkStyle code scan := rfl

lemma analyze_score_eq (code : List Char) (board : String) (scan : RegexScan) :
    (analyze code board scan).quality_score
      = calculateWeightedScore (analyze code board scan).issues (getBoardSpec board) := rfl

/-- C1: the scoring engine starts at 100, subtracts for each issue the integer
truncation of the severity base penalty (critical 20, high 12, medium 6,
low 3) times the board-dependent category multiplier (correctness 1.0; memory
1.5 when RAM is below 500 kB else 1.0; performance 1.3 when realtime else 0.8;
safety 1.0; style 0.5), and clamps once at the end; the result is an integer
in [0, 100]. -/
theorem c1_weighted_score (issues : List CodeIssue) (board_info : BoardInfo) :
    calculateWeightedScore issues board_info
        = max 0 (min 100
            (100 - (issues.map fun i => (penalty i.severity i.type board_info : ℤ)).sum))
    ∧ (∀ sev t, (penalty sev t board_info : ℤ) = specPenalty sev t board_info)
    ∧ 0 ≤ calculateWeightedScore issues board_info
    ∧ calculateWeightedScore issues board_info ≤ 100 :=
  ⟨score_eq_clamp issues board_info,
   fun sev t => penalty_eq_spec sev t board_info,
   score_nonneg issues board_info,
   score_le_hundred issues board_info⟩

/-- C6: board resolution is total, and for every unrecognized board identifier
the complete report equals the report for the default identifier esp32dev. -/
theorem c6_unknown_board (code : List Char) (scan : RegexScan) (board : String)
    (h1 : board ≠ "esp32dev") (h2 : board ≠ "esp32s3") (h3 : board ≠ "esp32c3") :
    getBoardSpec board = esp32devSpec
    ∧ analyze code board scan = analyze code "esp32dev" scan := by
  have hb : getBoardSpec board = esp32devSpec := by
    unfold getBoardSpec
    rw [if_neg h1, if_neg h2, if_neg h3]
  refine ⟨hb, ?_⟩
  unfold analyze
  rw [hb]
  rfl

/-- Witness for C6 at the concrete unknown identifier "arduino-uno". -/
theorem c6_unknown_board_witness :
    getBoardSpec "arduino-uno" = esp32devSpec
    ∧ analyze [] "arduino-uno" scanZero = analyze [] "esp32dev" scanZero :=
  c6_unknown_board [] scanZero "arduino-uno" (by decide) (by decide) (by decide)

/-- C7 counterexample: the claim that a non-string argument makes the engine
fail fast with InputError is false on the code.  A non-string board argument
produces no failure at all (the dict lookup silently falls back to the default
profile), and a non-string code argument fails with the interpreter's built-in
TypeError, there being no InputError type anywhere in the repository. -/
theorem c7_input_error_counterexample :
    analyzeDyn (PyArg.ofStr "") PyArg.nonString scanZero
        = Except.ok (analyzeWithSpec (chars "") esp32devSpec scanZero)
    ∧ analyzeDyn PyArg.nonString (PyArg.ofStr "esp32dev") scanZero
        = Except.error PyExc.typeError :=
  ⟨rfl, rfl⟩

/-- C7 (amended): for every well-formed string input, including the empty
string, analyze never fails and returns a complete report; a non-string code
argument raises the interpreter's built-in TypeError at the first substring
test rather than a dedicated InputError, and a non-string board argument does
not signal failure at all but silently resolves to the default profile. -/
theorem c7_analyze_total (code : String) (board : PyArg) (scan : RegexScan) :
    (∃ r : Report, analyzeDyn (PyArg.ofStr code) board scan = Except.ok r)
    ∧ analyzeDyn PyArg.nonString board scan = Except.error PyExc.typeError :=
  ⟨⟨_, rfl⟩, rfl⟩

/-- Severity-indexed access to the `issues_by_severity` buckets. -/
def sevBucket (bk : SevBuckets) : IssueSeverity → List CodeIssue
  | IssueSeverity.critical => bk.critical
  | IssueSeverity.high => bk.high
  | IssueSeverity.medium => bk.medium
  | IssueSeverity.low => bk.low

/-- Category-indexed access to the `issues_by_type` buckets. -/
def typeBucket (g : GroupedByType) : IssueType → List CodeIssue
  | IssueType.memory => g.memory
  | IssueType.performance => g.performance
  | IssueType.correctness => g.correctness
  | IssueType.safety => g.safety
  | IssueType.style => g.style

lemma count_filter_eq (a : CodeIssue) (p : CodeIssue → Bool) (l : List CodeIssue) :
    (l.filter p).count a = if p a = true then l.count a else 0 := by
  split
  · exact List.count_filter (by assumption)
  · refine List.count_eq_zero.mpr ?_
    intro hm
    have hpa := (List.mem_filter.mp hm).2
    simp_all

lemma sev_filters_perm (l : List CodeIssue) :
    (l.filter (fun i => decide (i.severity = IssueSeverity.critical)) ++
     l.filter (fun i => decide (i.severity = IssueSeverity.high)) ++
     l.filter (fun i => decide (i.severity = IssueSeverity.medium)) ++
     l.filter (fun i => decide (i.severity = IssueSeverity.low))).Perm l := by
  rw [List.perm_iff_count]
  intro a
  simp only [List.count_append, count_filter_eq]
  cases ha : a.severity <;> simp [ha]

lemma type_filters_perm (l : List CodeIssue) :
    (l.filter (fun i => decide (i.type = IssueType.memory)) ++
     l.filter (fun i => decide (i.type = IssueType.performance)) ++
     l.filter (fun i => decide (i.type = IssueType.correctness)) ++
     l.filter (fun i => decide (i.type = IssueType.safety)) ++
     l.filter (fun i => decide (i.type = IssueType.style))).Perm l := by
  rw [List.perm_iff_count]
  intro a
  simp only [List.count_append, count_filter_eq]
  cases ha : a.type <;> simp [ha]

lemma groupByType_go (l : List CodeIssue) :
    ∀ g : GroupedByType, l.foldl groupByTypeStep g
      = { memory := g.memory ++ l.filter fun i => decide (i.type = IssueType.memory),
          performance :=
            g.performance ++ l.filter fun i => decide (i.type = IssueType.performance),
          correctness :=
            g.correctness ++ l.filter fun i => decide (i.type = IssueType.correctness),
          safety := g.safety ++ l.filter fun i => decide (i.type = IssueType.safety),
          style := g.style ++ l.filter fun i => decide (i.type = IssueType.style) } := by
  induction l with
  | nil => intro g; simp
  | cons x xs ih =>
    intro g
    obtain ⟨t, sev, msg, sug, ln⟩ := x
    rw [List.foldl_cons]
    cases t <;> simp [groupByTypeStep, List.filter_cons, ih, List.append_assoc]

lemma groupByType_eq_filters (issues : List CodeIssue) :
    groupByType issues
      = { memory := issues.filter fun i => decide (i.type = IssueType.memory),
          performance := issues.filter fun i => decide (i.type = IssueType.performance),
          correctness := issues.filter fun i => decide (i.type = IssueType.correctness),
          safety := issues.filter fun i => decide (i.type = IssueType.safety),
          style := issues.filter fun i => decide (i.type = IssueType.style) } := by
  have h := groupByType_go issues
    { memory := [], performance := [], correctness := [], safety := [], style := [] }
  simpa [groupByType] using h

lemma typeBucket_groupByType (l : List CodeIssue) (t : IssueType) :
    typeBucket (groupByType l) t = l.filter fun i => decide (i.type = t) := by
  rw [groupByType_eq_filters]
  cases t <;> rfl

lemma sevBucket_analyze (code : List Char) (board : String) (scan : RegexScan)
    (s : IssueSeverity) :
    sevBucket (analyze code board scan).issues_by_severity s
      = (analyze code board scan).issues.filter fun i => decide (i.severity = s) := by
  cases s <;> rfl

lemma typeBucket_analyze (code : List Char) (board : String) (scan : RegexScan)
    (t : IssueType) :
    typeBucket (analyze code board scan).issues_by_type t
      = (analyze code board scan).issues.filter fun i => decide (i.type = t) := by
  have h : (analyze code board scan).issues_by_type
      = groupByType (analyze code board scan).issues := rfl
  rw [h, typeBucket_groupByType]

/-- C2: in every report, each issue lands in exactly one severity bucket and
exactly one category bucket, and the union of the severity buckets (likewise
the category buckets) has exactly the members of the flat issue list, with no
duplication or omission. -/
theorem c2_bucket_partition (code : List Char) (board : String) (scan : RegexScan) :
    (sevBucket (analyze code board scan).issues_by_severity IssueSeverity.critical ++
     sevBucket (analyze code board scan).issues_by_severity IssueSeverity.high ++
     sevBucket (analyze code board scan).issues_by_severity IssueSeverity.medium ++
     sevBucket (analyze code board scan).issues_by_severity IssueSeverity.low).Perm
      (analyze code board scan).issues
    ∧ (typeBucket (analyze code board scan).issues_by_type IssueType.memory ++
       typeBucket (analyze code board scan).issues_by_type IssueType.performance ++
       typeBucket (analyze code board scan).issues_by_type IssueType.correctness ++
       typeBucket (analyze code board scan).issues_by_type IssueType.safety ++
       typeBucket (analyze code board scan).issues_by_type IssueType.style).Perm
      (analyze code board scan).issues
    ∧ (∀ i s, i ∈ sevBucket (analyze code board scan).issues_by_severity s
        ↔ (i ∈ (analyze code board scan).issues ∧ i.severity = s))
    ∧ (∀ i t, i ∈ typeBucket (analyze code board scan).issues_by_type t
        ↔ (i ∈ (analyze code board scan).issues ∧ i.type = t))
    ∧ (∀ i, i ∈ (analyze code board scan).issues →
        (∃! s, i ∈ sevBucket (analyze code board scan).issues_by_severity s)
        ∧ (∃! t, i ∈ typeBucket (analyze code board scan).issues_by_type t)) := by
  refine ⟨?_, ?_, ?_, ?_, ?_⟩
  · simp only [sevBucket_analyze]
    exact sev_filters_perm _
  · simp only [typeBucket_analyze]
    exact type_filters_perm _
  · intro i s
    rw [sevBucket_analyze]
    simp [List.mem_filter]
  · intro i t
    rw [typeBucket_analyze]
    simp [List.mem_filter]
  · intro i hi
    constructor
    · refine ⟨i.severity, ?_, ?_⟩
      · simp only [sevBucket_analyze]
        simp [List.mem_filter, hi]
      · intro s2 hs2
        rw [sevBucket_analyze] at hs2
        have hm := (List.mem_filter.mp hs2).2
        simp only [decide_eq_true_eq] at hm
        exact hm.symm
    · refine ⟨i.type, ?_, ?_⟩
      · simp only [typeBucket_analyze]
        simp [List.mem_filter, hi]
      · intro t2 ht2
        rw [typeBucket_analyze] at ht2
        have hm := (List.mem_filter.mp ht2).2
        simp only [decide_eq_true_eq] at hm
        exact hm.symm

/-- Witness for C2: the missing-setup issue of the empty-text report sits in
the critical severity bucket and in the correctness category bucket. -/
theorem c2_bucket_partition_witness :
    issueMissingSetup ∈
      sevBucket (analyze [] "esp32dev" scanZero).issues_by_severity IssueSeverity.critical
    ∧ issueMissingSetup ∈
      typeBucket (analyze [] "esp32dev" scanZero).issues_by_type IssueType.correctness := by
  have h := c2_bucket_partition [] "esp32dev" scanZero
  have hmem : issueMissingSetup ∈ (analyze [] "esp32dev" scanZero).issues := by decide
  exact ⟨(h.2.2.1 issueMissingSetup IssueSeverity.critical).mpr ⟨hmem, rfl⟩,
    (h.2.2.2.1 issueMissingSetup IssueType.correctness).mpr ⟨hmem, rfl⟩⟩

lemma largeArray_flatMap_eq (sizes : List Nat) (board_info : BoardInfo) :
    (sizes.flatMap fun size => if 1000 < size then [largeArrayIssue size board_info] else [])
      = (sizes.filter fun size => decide (1000 < size)).map
          fun size => largeArrayIssue size board_info := by
  induction sizes with
  | nil => rfl
  | cons x xs ih => by_cases h : 1000 < x <;> simp [h, ih]

/-- C4: the memory-safety rule emits exactly one memory issue per declared
byte array whose size exceeds 1000, severity critical when the board RAM is
below 500 kB and high otherwise; in particular a single 2000-unit array is
critical on the 400 kB board and high on the 1507 kB board. -/
theorem c4_large_static_arrays (code : List Char) (scan : RegexScan)
    (board_info : BoardInfo) :
    ((scan.large_arrays.flatMap fun size =>
        if 1000 < size then [largeArrayIssue size board_info] else [])
      = (scan.large_arrays.filter fun size => decide (1000 < size)).map
          fun size => largeArrayIssue size board_info)
    ∧ (scan.large_arrays.flatMap fun size =>
        if 1000 < size then [largeArrayIssue size board_info] else []).Sublist
        (checkMemorySafety code scan board_info)
    ∧ (∀ size, (largeArrayIssue size board_info).type = IssueType.memory
        ∧ (largeArrayIssue size board_info).severity
            = (if board_info.total_ram_kb < 500 then IssueSeverity.critical
               else IssueSeverity.high))
    ∧ checkMemorySafety [] { scanZero with large_arrays := [2000] } esp32c3Spec
        = [largeArrayIssue 2000 esp32c3Spec]
    ∧ (largeArrayIssue 2000 esp32c3Spec).severity = IssueSeverity.critical
    ∧ checkMemorySafety [] { scanZero with large_arrays := [2000] } esp32s3Spec
        = [largeArrayIssue 2000 esp32s3Spec]
    ∧ (largeArrayIssue 2000 esp32s3Spec).severity = IssueSeverity.high
    ∧ esp32c3Spec.total_ram_kb = 400 ∧ esp32s3Spec.total_ram_kb = 1507 := by
  refine ⟨largeArray_flatMap_eq _ _, ?_, ?_, rfl, rfl, rfl, rfl, rfl, rfl⟩
  · unfold checkMemorySafety
    exact (List.sublist_append_left _ _).trans (List.sublist_append_left _ _)
  · intro size
    exact ⟨rfl, rfl⟩

/-- C5: the performance rule classifies each numeric-literal delay by
duration: at least 10000 is critical on realtime boards and high otherwise;
1000 to 9999 is high on realtime boards and medium otherwise; below 1000
yields no delay issue; in particular 15000 is critical on the realtime board
and high on the non-realtime default board. -/
theorem c5_delay_classification (code : List Char) (scan : RegexScan)
    (board_info : BoardInfo) :
    (∀ d, 10000 ≤ d → delayIssue d board_info = [veryLongDelayIssue d board_info])
    ∧ (∀ d, 1000 ≤ d → d < 10000 → delayIssue d board_info = [longDelayIssue d board_info])
    ∧ (∀ d, d < 1000 → delayIssue d board_info = [])
    ∧ (∀ d, (veryLongDelayIssue d board_info).type = IssueType.performance
        ∧ (veryLongDelayIssue d board_info).severity
            = (if board_info.is_realtime then IssueSeverity.critical else IssueSeverity.high)
        ∧ (longDelayIssue d board_info).type = IssueType.performance
        ∧ (longDelayIssue d board_info).severity
            = (if board_info.is_realtime then IssueSeverity.high else IssueSeverity.medium))
    ∧ (scan.long_delays.flatMap fun d => delayIssue d board_info).Sublist
        (checkPerformance code scan board_info)
    ∧ delayIssue 15000 esp32c3Spec = [veryLongDelayIssue 15000 esp32c3Spec]
    ∧ (veryLongDelayIssue 15000 esp32c3Spec).severity = IssueSeverity.critical
    ∧ delayIssue 15000 esp32devSpec = [veryLongDelayIssue 15000 esp32devSpec]
    ∧ (veryLongDelayIssue 15000 esp32devSpec).severity = IssueSeverity.high
    ∧ esp32c3Spec.is_realtime = true ∧ esp32devSpec.is_realtime = false := by
  refine ⟨?_, ?_, ?_, ?_, ?_, rfl, rfl, rfl, rfl, rfl, rfl⟩
  case refine_5 =>
    unfold checkPerformance
    exact (List.sublist_append_left _ _).trans (List.sublist_append_left _ _)
  · intro d hd
    simp [delayIssue, hd]
  · intro d h1 h2
    simp only [delayIssue]
    rw [if_neg (by omega), if_pos h1]
  · intro d hd
    simp only [delayIssue]
    rw [if_neg (by omega), if_neg (by omega)]
  · intro d
    refine ⟨rfl, rfl, rfl, ?_⟩
    cases hb : board_info.is_realtime <;> simp [longDelayIssue, hb]

/-- Witness for C5 at concrete durations 15000, 5000 and 500. -/
theorem c5_delay_classification_witness :
    delayIssue 15000 esp32c3Spec = [veryLongDelayIssue 15000 esp32c3Spec]
    ∧ delayIssue 5000 esp32devSpec = [longDelayIssue 5000 esp32devSpec]
    ∧ delayIssue 500 esp32devSpec = ([] : List CodeIssue) := by
  have hdev := c5_delay_classification [] scanZero esp32devSpec
  have hc3 := c5_delay_classification [] scanZero esp32c3Spec
  exact ⟨hc3.1 15000 (by norm_num), hdev.2.1 5000 (by norm_num) (by norm_num),
    hdev.2.2.1 500 (by norm_num)⟩

lemma penalty_mono {s1 s2 : IssueSeverity} (t : IssueType) (board_info : BoardInfo)
    (h : severityWeight s1 ≤ severityWeight s2) :
    penalty s1 t board_info ≤ penalty s2 t board_info :=
  Nat.div_le_div_right (Nat.mul_le_mul h (Nat.le_refl _))

lemma penalty_cast_nonneg (board_info : BoardInfo) (i : CodeIssue) :
    (0 : ℤ) ≤ (penalty i.severity i.type board_info : ℤ) :=
  Int.natCast_nonneg _

lemma penalty_map_sum_nonneg (board_info : BoardInfo) (l : List CodeIssue) :
    (0 : ℤ) ≤ (l.map fun i => (penalty i.severity i.type board_info : ℤ)).sum := by
  refine List.sum_nonneg ?_
  intro x hx
  obtain ⟨i, _, rfl⟩ := List.mem_map.mp hx
  exact penalty_cast_nonneg board_info i

lemma forall2_penalty_sum_le (board_info : BoardInfo) {l1 l2 : List CodeIssue}
    (hrel : List.Forall₂
      (fun iB iA => iA.type = iB.type
        ∧ severityWeight iB.severity ≤ severityWeight iA.severity) l1 l2) :
    (l1.map fun i => (penalty i.severity i.type board_info : ℤ)).sum
      ≤ (l2.map fun i => (penalty i.severity i.type board_info : ℤ)).sum := by
  induction hrel with
  | nil => simp
  | cons hab htail ih =>
    simp only [List.map_cons, List.sum_cons]
    refine add_le_add ?_ ih
    rename_i a b l3 l4
    have hb : penalty a.severity a.type board_info ≤ penalty b.severity b.type board_info := by
      rw [hab.1]
      exact penalty_mono _ _ hab.2
    exact_mod_cast hb

/-- C8: scoring is monotone; for a fixed board, a strictly larger issue list
whose matching issues have equal-or-greater severities scores no better. -/
theorem c8_score_monotone (board_info : BoardInfo)
    (issuesA issuesB pre extra : List CodeIssue)
    (hA : issuesA = pre ++ extra) (_hextra : extra ≠ [])
    (hrel : List.Forall₂
      (fun iB iA => iA.type = iB.type
        ∧ severityWeight iB.severity ≤ severityWeight iA.severity)
      issuesB pre) :
    calculateWeightedScore issuesA board_info
      ≤ calculateWeightedScore issuesB board_info := by
  have hsum1 : ((issuesB.map fun i => (penalty i.severity i.type board_info : ℤ)).sum)
      ≤ ((pre.map fun i => (penalty i.severity i.type board_info : ℤ)).sum) :=
    forall2_penalty_sum_le board_info hrel
  have hsum2 : ((pre.map fun i => (penalty i.severity i.type board_info : ℤ)).sum)
      ≤ ((issuesA.map fun i => (penalty i.severity i.type board_info : ℤ)).sum) := by
    subst hA
    rw [List.map_append, List.sum_append]
    exact le_add_of_nonneg_right (penalty_map_sum_nonneg board_info extra)
  rw [score_eq_clamp, score_eq_clamp]
  have hle := hsum1.trans hsum2
  exact max_le_max (le_refl 0) (min_le_min (le_refl 100) (by linarith))

/-- Witness for C8: appending a low-severity safety issue to a singleton
critical issue list does not increase the score. -/
theorem c8_score_monotone_witness :
    calculateWeightedScore [issueMissingSetup, issueSerialBegin] esp32devSpec
      ≤ calculateWeightedScore [issueMissingSetup] esp32devSpec := by
  refine c8_score_monotone esp32devSpec _ _ [issueMissingSetup] [issueSerialBegin]
    rfl (by simp) ?_
  exact List.Forall₂.cons ⟨rfl, Nat.le_refl _⟩ List.Forall₂.nil

lemma score_cons_cons_le (i j : CodeIssue) (tl : List CodeIssue) (board_info : BoardInfo)
    (hi : (penalty i.severity i.type board_info : ℤ) = 20)
    (hj : (penalty j.severity j.type board_info : ℤ) = 20) :
    calculateWeightedScore (i :: j :: tl) board_info ≤ 60 := by
  rw [score_eq_clamp]
  simp only [List.map_cons, List.sum_cons, hi, hj]
  have hS := penalty_map_sum_nonneg board_info tl
  refine max_le (by norm_num) (le_trans (min_le_right _ _) (by linarith))

/-- C9: a text containing neither entry-point signature, analyzed for
esp32dev, reports both critical correctness issues (so at least two critical
correctness issues are in the list) and scores at most 60. -/
theorem c9_missing_entry_points (code : List Char) (scan : RegexScan)
    (h1 : pyIn (chars "void setup()") code = false)
    (h2 : pyIn (chars "void setup (") code = false)
    (h3 : pyIn (chars "void loop()") code = false)
    (h4 : pyIn (chars "void loop (") code = false) :
    issueMissingSetup ∈ (analyze code "esp32dev" scan).issues
    ∧ issueMissingLoop ∈ (analyze code "esp32dev" scan).issues
    ∧ 2 ≤ (analyze code "esp32dev" scan).issues.countP
        (fun i => decide (i.severity = IssueSeverity.critical
          ∧ i.type = IssueType.correctness))
    ∧ (analyze code "esp32dev" scan).quality_score ≤ 60 := by
  have hcc : checkCorrectness code scan
      = issueMissingSetup :: issueMissingLoop ::
        (if scan.unbounded_char_array then [issueUnboundedArray] else []) := by
    simp [checkCorrectness, h1, h2, h3, h4]
  have hiss : (analyze code "esp32dev" scan).issues
      = issueMissingSetup :: issueMissingLoop ::
        ((if scan.unbounded_char_array then [issueUnboundedArray] else []) ++
         (checkMemorySafety code scan (getBoardSpec "esp32dev") ++
          (checkPerformance code scan (getBoardSpec "esp32dev") ++
           (checkSafety code ++ checkStyle code scan)))) := by
    rw [analyze_issues_eq, hcc]
    simp only [List.cons_append, List.append_assoc]
  refine ⟨?_, ?_, ?_, ?_⟩
  · rw [hiss]
    exact List.mem_cons_self _ _
  · rw [hiss]
    exact List.mem_cons_of_mem _ (List.mem_cons_self _ _)
  · rw [hiss]
    simp [List.countP_cons, issueMissingSetup, issueMissingLoop]
  · rw [analyze_score_eq, hiss]
    exact score_cons_cons_le _ _ _ _ (by decide) (by decide)

/-- Witness for C9 at the empty text. -/
theorem c9_missing_entry_points_witness :
    issueMissingSetup ∈ (analyze [] "esp32dev" scanZero).issues
    ∧ issueMissingLoop ∈ (analyze [] "esp32dev" scanZero).issues
    ∧ 2 ≤ (analyze [] "esp32dev" scanZero).issues.countP
        (fun i => decide (i.severity = IssueSeverity.critical
          ∧ i.type = IssueType.correctness))
    ∧ (analyze [] "esp32dev" scanZero).quality_score ≤ 60 :=
  c9_missing_entry_points [] scanZero (by decide) (by decide) (by decide) (by decide)

/-- Code size in kB exactly as the specification words it. -/
def specCodeSizeKb (code : List Char) : ℚ := (code.length : ℚ) / 1024

/-- Estimated global-variable footprint exactly as the specification words
it. -/
def specGlobalKb (scan : RegexScan) : ℚ :=
  ((scan.global_vars * 4 + scan.arrays * 20 + scan.structs * 10 : Nat) : ℚ) / 1024

/-- Used kB exactly as the specification words it. -/
def specUsedKb (code : List Char) (scan : RegexScan) (board_info : BoardInfo) : ℚ :=
  specCodeSizeKb code + specGlobalKb scan + (board_info.system_reserved_kb : ℚ)

/-- Free kB exactly as the specification words it. -/
def specFreeKb (code : List Char) (scan : RegexScan) (board_info : BoardInfo) : ℚ :=
  max 0 ((board_info.total_ram_kb : ℚ) - specUsedKb code scan board_info)

/-- Usage percentage exactly as the specification words it: the raw ratio
clamped to [0, 100] on both sides. -/
def specUsagePercent (code : List Char) (scan : RegexScan) (board_info : BoardInfo) : ℚ :=
  min 100 (max 0
    (specUsedKb code scan board_info / (board_info.total_ram_kb : ℚ) * 100))

lemma roundRat_mono {x y : ℚ} (h : x ≤ y) : round x ≤ round y := by
  rw [round_eq, round_eq]
  exact Int.floor_mono (by linarith)

lemma roundTo_nonneg {q : ℚ} (n : Nat) (h : 0 ≤ q) : 0 ≤ roundTo q n := by
  unfold roundTo
  refine div_nonneg ?_ (by positivity)
  have h0 : round (0 : ℚ) ≤ round (q * 10 ^ n) :=
    roundRat_mono (mul_nonneg h (by positivity))
  rw [round_zero] at h0
  exact_mod_cast h0

lemma roundTo_usage_le_hundred {q : ℚ} (h : q ≤ 100) : roundTo q 1 ≤ 100 := by
  unfold roundTo
  rw [div_le_iff₀ (by norm_num : (0 : ℚ) < 10 ^ 1)]
  have hq : q * 10 ^ 1 ≤ 1000 := by
    norm_num
    linarith
  have h1 : round (q * 10 ^ 1) ≤ round ((1000 : ℚ)) := roundRat_mono hq
  have h2 : round ((1000 : ℚ)) = 1000 := by
    norm_num [round_eq]
  rw [h2] at h1
  calc ((round (q * 10 ^ 1) : ℤ) : ℚ) ≤ (1000 : ℚ) := by exact_mod_cast h1
    _ = 100 * 10 ^ 1 := by norm_num

/-- C3: the memory estimator computes exactly the specified formulas (code
size, global estimate, reserve, free RAM floored at zero, usage percentage
clamped to [0, 100]) and the safety-margin thresholds at 80 and 50; usage is
always within [0, 100] and estimated free RAM is never negative. -/
theorem c3_memory_estimator (code : List Char) (scan : RegexScan)
    (board_info : BoardInfo) (hram : 0 < board_info.total_ram_kb) :
    (estimateMemory code scan board_info).estimated_code_size_kb
        = roundTo (specCodeSizeKb code) 2
    ∧ (estimateMemory code scan board_info).estimated_global_vars_kb
        = roundTo (specGlobalKb scan) 2
    ∧ (estimateMemory code scan board_info).estimated_free_ram_kb
        = roundTo (specFreeKb code scan board_info) 2
    ∧ (estimateMemory code scan board_info).usage_percent
        = roundTo (specUsagePercent code scan board_info) 1
    ∧ (estimateMemory code scan board_info).safety_margin
        = (if 80 < specUsagePercent code scan board_info then "critical"
           else if 50 < specUsagePercent code scan board_info then "warning"
           else "good")
    ∧ 0 ≤ (estimateMemory code scan board_info).usage_percent
    ∧ (estimateMemory code scan board_info).usage_percent ≤ 100
    ∧ 0 ≤ (estimateMemory code scan board_info).estimated_free_ram_kb := by
  have htotal : (0 : ℚ) < (board_info.total_ram_kb : ℚ) := by exact_mod_cast hram
  have hused : 0 ≤ specUsedKb code scan board_info := by
    unfold specUsedKb specCodeSizeKb specGlobalKb
    positivity
  have hraw : 0 ≤ specUsedKb code scan board_info / (board_info.total_ram_kb : ℚ) * 100 :=
    mul_nonneg (div_nonneg hused htotal.le) (by norm_num)
  have hmax : max 0 (specUsedKb code scan board_info / (board_info.total_ram_kb : ℚ) * 100)
      = specUsedKb code scan board_info / (board_info.total_ram_kb : ℚ) * 100 :=
    max_eq_right hraw
  have husage : (estimateMemory code scan board_info).usage_percent
      = roundTo (min 100
          (specUsedKb code scan board_info / (board_info.total_ram_kb : ℚ) * 100)) 1 := rfl
  have hspec : specUsagePercent code scan board_info
      = min 100 (specUsedKb code scan board_info / (board_info.total_ram_kb : ℚ) * 100) := by
    unfold specUsagePercent
    rw [hmax]
  have husage2 : (estimateMemory code scan board_info).usage_percent
      = roundTo (specUsagePercent code scan board_info) 1 := by
    rw [husage, hspec]
  have hminnn : 0 ≤ min (100 : ℚ)
      (specUsedKb code scan board_info / (board_info.total_ram_kb : ℚ) * 100) :=
    le_min (by norm_num) hraw
  refine ⟨rfl, rfl, rfl, husage2, ?_, ?_, ?_, ?_⟩
  · rw [hspec]
    rfl
  · rw [husage2, hspec]
    exact roundTo_nonneg 1 hminnn
  · rw [husage2, hspec]
    exact roundTo_usage_le_hundred (min_le_left _ _)
  · have hfree : (estimateMemory code scan board_info).estimated_free_ram_kb
        = roundTo (specFreeKb code scan board_info) 2 := rfl
    rw [hfree]
    exact roundTo_nonneg 2 (le_max_left _ _)

/-- Witness for C3 on the default board with the empty text. -/
theorem c3_memory_estimator_witness :
    0 < esp32devSpec.total_ram_kb
    ∧ 0 ≤ (estimateMemory [] scanZero esp32devSpec).usage_percent
    ∧ (estimateMemory [] scanZero esp32devSpec).usage_percent ≤ 100
    ∧ 0 ≤ (estimateMemory [] scanZero esp32devSpec).estimated_free_ram_kb := by
  have h := c3_memory_estimator [] scanZero esp32devSpec (by norm_num [esp32devSpec])
  exact ⟨by norm_num [esp32devSpec], h.2.2.2.2.2.1, h.2.2.2.2.2.2.1, h.2.2.2.2.2.2.2⟩

/-- C10: calls on a reused analyzer instance are independent; whatever state a
previous sequence of calls left behind, the next call returns exactly the
fresh-instance result, and the report equals the pure analysis function. -/
theorem c10_instance_independence (st : AnalyzerState) (code : List Char)
    (board : String) (scan : RegexScan) :
    analyzeMut st code board scan = analyzeMut initState code board scan
    ∧ (analyzeMut st code board scan).2 = analyze code board scan := by
  constructor
  · rfl
  · simp [analyzeMut, analyze, analyzeWithSpec]

end CodeQuality
